import Mathlib

/-!
Verification of the label/sticker template rendering engine of the
ElectroManager repository (`qr_utils.py` and `routes/qr_template.py`).

Strings are modelled as `List Char`; Python `str.replace` is modelled by
`replaceAll` (left-to-right, non-overlapping), defined with a fuel argument
so that it is structurally recursive and evaluates by `decide`/`rfl`.
Third-party codecs (the `qrcode` and `barcode` libraries, and the WeasyPrint
PDF engine) are modelled as oracle functions whose `none`/`Except.error`
outcome models a raised exception.
-/

namespace EM

abbrev Str := List Char

def lbrace : Char := Char.ofNat 123

def rbrace : Char := Char.ofNat 125

/-- `'{' :: k ++ ['}']`, the literal text of the placeholder token named `k`,
as built by `f'{{{key}}}'` in `replace_placeholders`. -/
def tokenOf (k : Str) : Str := lbrace :: (k ++ [rbrace])

/-- Fuelled core of Python `str.replace`: scan left to right, replace each
non-overlapping occurrence of `pat`, never re-scanning the inserted
replacement text. The fuel is only a structural-recursion device. -/
def replaceAllF (pat v : Str) : Nat → Str → Str
  | _, [] => []
  | 0, s => s
  | f + 1, c :: t =>
    if pat.isPrefixOf (c :: t) ∧ pat ≠ [] then
      v ++ replaceAllF pat v f ((c :: t).drop pat.length)
    else
      c :: replaceAllF pat v f t

/-- Python `s.replace(pat, v)` for non-empty `pat` (all call sites of
`replace_placeholders` use non-empty patterns `'{' + key + '}'`). -/
def replaceAll (pat v s : Str) : Str := replaceAllF pat v s.length s

/-- `replace_placeholders(text, data_dict)` from `qr_utils.py`:
a sequential fold of `str.replace` over the table entries, in table order
(Python dicts iterate in insertion order). -/
def replace_placeholders (text : Str) (table : List (Str × Str)) : Str :=
  table.foldl (fun acc kv => replaceAll (tokenOf kv.1) kv.2 acc) text

theorem replaceAllF_fuel_irrel (pat v : Str) :
    ∀ (f₁ f₂ : Nat) (s : Str), s.length ≤ f₁ → s.length ≤ f₂ →
      replaceAllF pat v f₁ s = replaceAllF pat v f₂ s := by
  intro f₁
  induction f₁ using Nat.strong_induction_on with
  | _ f₁ ih =>
    intro f₂ s h₁ h₂
    match s with
    | [] =>
      cases f₁ <;> cases f₂ <;> rfl
    | c :: t =>
      match f₁, f₂ with
      | 0, _ => simp at h₁
      | _ + 1, 0 => simp at h₂
      | g₁ + 1, g₂ + 1 =>
        simp only [replaceAllF]
        by_cases hp : pat.isPrefixOf (c :: t) ∧ pat ≠ []
        · have hlen : pat.length ≠ 0 := by
            intro h0
            exact hp.2 (List.length_eq_zero.mp h0)
          have hdrop : ((c :: t).drop pat.length).length ≤ g₁ := by
            simp only [List.length_drop, List.length_cons]
            simp only [List.length_cons] at h₁
            omega
          have hdrop₂ : ((c :: t).drop pat.length).length ≤ g₂ := by
            simp only [List.length_drop, List.length_cons]
            simp only [List.length_cons] at h₂
            omega
          rw [if_pos hp, if_pos hp,
            ih g₁ (Nat.lt_succ_self g₁) g₂ _ hdrop hdrop₂]
        · have hl₁ : t.length ≤ g₁ := by
            simp only [List.length_cons] at h₁; omega
          have hl₂ : t.length ≤ g₂ := by
            simp only [List.length_cons] at h₂; omega
          rw [if_neg hp, if_neg hp, ih g₁ (Nat.lt_succ_self g₁) g₂ t hl₁ hl₂]

theorem replaceAll_nil (pat v : Str) : replaceAll pat v [] = [] := rfl

theorem replaceAll_cons_pos {pat : Str} (v : Str) {c : Char} {t : Str}
    (hp : pat.isPrefixOf (c :: t)) (hne : pat ≠ []) :
    replaceAll pat v (c :: t) = v ++ replaceAll pat v ((c :: t).drop pat.length) := by
  have hlen : pat.length ≠ 0 := by
    intro h0; exact hne (List.length_eq_zero.mp h0)
  unfold replaceAll
  simp only [List.length_cons, replaceAllF, if_pos (And.intro hp hne)]
  congr 1
  exact replaceAllF_fuel_irrel pat v t.length ((c :: t).drop pat.length).length
    ((c :: t).drop pat.length)
    (by simp only [List.length_drop, List.length_cons]; omega)
    (Nat.le_refl _)

theorem replaceAll_cons_neg {pat : Str} (v : Str) {c : Char} {t : Str}
    (hp : ¬ (pat.isPrefixOf (c :: t) ∧ pat ≠ [])) :
    replaceAll pat v (c :: t) = c :: replaceAll pat v t := by
  unfold replaceAll
  simp only [List.length_cons, replaceAllF, if_neg hp]

/-- A string containing neither `{` nor `}` (the shape of placeholder key
names such as `ItemUUID`, and of ordinary literal text between tokens). -/
def braceFree (s : Str) : Bool :=
  s.all fun c => c != lbrace && c != rbrace

/-- One segment of a template string: either literal brace-free text, or the
literal text `{name}` of one placeholder token. -/
inductive Seg
  | lit (s : Str)
  | tok (name : Str)
deriving DecidableEq

/-- Well-formed segment: literal text and token names are brace-free. -/
def segWF : Seg → Bool
  | .lit s => braceFree s
  | .tok n => braceFree n

/-- The flat template string denoted by a segment list. -/
def flattenSegs : List Seg → Str
  | [] => []
  | .lit s :: rest => s ++ flattenSegs rest
  | .tok n :: rest => lbrace :: (n ++ rbrace :: flattenSegs rest)

/-- Effect of one `str.replace` pass for the token named `k` with value `v`,
expressed at segment level. -/
def replaceTokSeg (k v : Str) : Seg → Seg
  | .lit s => .lit s
  | .tok n => if n = k then .lit v else .tok n

/-- First-match association-list lookup (Python dict lookup). -/
def lookupStr (n : Str) : List (Str × Str) → Option Str
  | [] => none
  | kv :: rest => if kv.1 = n then some kv.2 else lookupStr n rest

/-- The spec's simultaneous single-pass resolution, at segment level: a known
token becomes its value, an unknown token stays as its own literal text,
literal text is untouched (spec sections 4.1 and 8). -/
def resolveTok (table : List (Str × Str)) : Seg → Seg
  | .lit s => .lit s
  | .tok n =>
    match lookupStr n table with
    | some v => .lit v
    | none => .tok n

/-- Segment-level effect of the whole sequential fold of
`replace_placeholders` over the table. -/
def applyTable (table : List (Str × Str)) (segs : List Seg) : List Seg :=
  table.foldl (fun sg kv => sg.map (replaceTokSeg kv.1 kv.2)) segs

theorem replaceAll_append_of_braceFree {k : Str} (v : Str) {l : Str}
    (hl : braceFree l = true) (r : Str) :
    replaceAll (tokenOf k) v (l ++ r) = l ++ replaceAll (tokenOf k) v r := by
  induction l with
  | nil => simp
  | cons c l ih =>
    have hc : (c != lbrace && c != rbrace) = true :=
      List.all_eq_true.mp hl c (List.mem_cons_self c l)
    have hcne : c ≠ lbrace := by
      rw [Bool.and_eq_true, bne_iff_ne, bne_iff_ne] at hc
      exact hc.1
    have hnp : ¬ ((tokenOf k).isPrefixOf (c :: (l ++ r)) ∧ tokenOf k ≠ []) := by
      intro h
      have h1 := h.1
      rw [tokenOf, List.isPrefixOf_cons₂, Bool.and_eq_true, beq_iff_eq] at h1
      exact hcne h1.1.symm
    rw [List.cons_append, replaceAll_cons_neg v hnp]
    have hl' : braceFree l = true := by
      rw [braceFree, List.all_cons, Bool.and_eq_true] at hl
      exact hl.2
    rw [ih hl', List.cons_append]

theorem isPrefixOf_token_tail_ne {k n : Str} (t : Str)
    (hk : braceFree k = true) (hn : braceFree n = true) (hne : k ≠ n) :
    (k ++ [rbrace]).isPrefixOf (n ++ rbrace :: t) = false := by
  induction k generalizing n with
  | nil =>
    match n with
    | [] => exact absurd rfl hne
    | c :: n' =>
      have hc : (c != lbrace && c != rbrace) = true :=
        List.all_eq_true.mp hn c (List.mem_cons_self c n')
      rw [Bool.and_eq_true, bne_iff_ne, bne_iff_ne] at hc
      rw [List.nil_append, List.cons_append, List.isPrefixOf_cons₂]
      simp [Ne.symm hc.2]
  | cons c k' ih =>
    have hck : (c != lbrace && c != rbrace) = true :=
      List.all_eq_true.mp hk c (List.mem_cons_self c k')
    rw [Bool.and_eq_true, bne_iff_ne, bne_iff_ne] at hck
    have hk' : braceFree k' = true := by
      rw [braceFree, List.all_cons, Bool.and_eq_true] at hk
      exact hk.2
    match n with
    | [] =>
      rw [List.cons_append, List.nil_append, List.isPrefixOf_cons₂]
      simp [hck.2]
    | d :: n' =>
      have hn' : braceFree n' = true := by
        rw [braceFree, List.all_cons, Bool.and_eq_true] at hn
        exact hn.2
      rw [List.cons_append, List.cons_append, List.isPrefixOf_cons₂]
      by_cases hcd : c = d
      · have hne' : k' ≠ n' := by
          intro h
          exact hne (by rw [hcd, h])
        rw [ih hk' hn' hne']
        simp
      · simp [hcd]

theorem replaceAll_token_hit (k v t : Str) :
    replaceAll (tokenOf k) v (lbrace :: (k ++ rbrace :: t))
      = v ++ replaceAll (tokenOf k) v t := by
  have heq : lbrace :: (k ++ rbrace :: t) = tokenOf k ++ t := by
    simp [tokenOf]
  have hp : (tokenOf k).isPrefixOf (lbrace :: (k ++ rbrace :: t)) = true := by
    rw [heq]
    exact List.isPrefixOf_iff_prefix.mpr (List.prefix_append _ _)
  have hne : tokenOf k ≠ [] := by simp [tokenOf]
  rw [replaceAll_cons_pos v hp hne]
  congr 1
  rw [heq, List.drop_left]

theorem replaceAll_token_flatten {k : Str} (v : Str) (hk : braceFree k = true) :
    ∀ segs : List Seg, (∀ s ∈ segs, segWF s = true) →
      replaceAll (tokenOf k) v (flattenSegs segs)
        = flattenSegs (segs.map (replaceTokSeg k v)) := by
  intro segs
  induction segs with
  | nil => intro _; rfl
  | cons sg rest ih =>
    intro hwf
    have hsg : segWF sg = true := hwf sg (List.mem_cons_self sg rest)
    have hrest : ∀ s ∈ rest, segWF s = true :=
      fun s hs => hwf s (List.mem_cons_of_mem sg hs)
    match sg with
    | .lit s =>
      have hs : braceFree s = true := hsg
      rw [show flattenSegs (Seg.lit s :: rest) = s ++ flattenSegs rest from rfl]
      rw [replaceAll_append_of_braceFree v hs, ih hrest]
      rfl
    | .tok n =>
      have hn : braceFree n = true := hsg
      by_cases hkn : n = k
      · subst hkn
        rw [show flattenSegs (Seg.tok n :: rest)
              = lbrace :: (n ++ rbrace :: flattenSegs rest) from rfl]
        rw [replaceAll_token_hit, ih hrest]
        simp [replaceTokSeg, flattenSegs]
      · rw [show flattenSegs (Seg.tok n :: rest)
              = lbrace :: (n ++ rbrace :: flattenSegs rest) from rfl]
        have hheadne : ¬ ((tokenOf k).isPrefixOf
            (lbrace :: (n ++ rbrace :: flattenSegs rest)) ∧ tokenOf k ≠ []) := by
          intro h
          have h1 := h.1
          rw [tokenOf, List.isPrefixOf_cons₂, Bool.and_eq_true] at h1
          have h2 := h1.2
          rw [isPrefixOf_token_tail_ne (flattenSegs rest) hk hn (fun he => hkn he.symm)] at h2
          exact Bool.false_ne_true h2
        rw [replaceAll_cons_neg v hheadne]
        rw [replaceAll_append_of_braceFree v hn]
        have hrb : ¬ ((tokenOf k).isPrefixOf (rbrace :: flattenSegs rest) ∧ tokenOf k ≠ []) := by
          intro h
          have h1 := h.1
          rw [tokenOf, List.isPrefixOf_cons₂, Bool.and_eq_true, beq_iff_eq] at h1
          have : lbrace ≠ rbrace := by decide
          exact this h1.1
        rw [replaceAll_cons_neg v hrb, ih hrest]
        simp [replaceTokSeg, hkn, flattenSegs]

theorem replace_placeholders_flatten :
    ∀ (table : List (Str × Str)) (segs : List Seg),
      (∀ kv ∈ table, braceFree kv.1 = true ∧ braceFree kv.2 = true) →
      (∀ s ∈ segs, segWF s = true) →
      replace_placeholders (flattenSegs segs) table = flattenSegs (applyTable table segs) := by
  intro table
  induction table with
  | nil => intro segs _ _; rfl
  | cons kv rest ih =>
    intro segs htab hwf
    have hk : braceFree kv.1 = true := (htab kv (List.mem_cons_self kv rest)).1
    have hv : braceFree kv.2 = true := (htab kv (List.mem_cons_self kv rest)).2
    have hrest : ∀ p ∈ rest, braceFree p.1 = true ∧ braceFree p.2 = true :=
      fun p hp => htab p (List.mem_cons_of_mem kv hp)
    have hstep : replace_placeholders (flattenSegs segs) (kv :: rest)
        = replace_placeholders (replaceAll (tokenOf kv.1) kv.2 (flattenSegs segs)) rest := rfl
    rw [hstep, replaceAll_token_flatten kv.2 hk segs hwf]
    have hwf' : ∀ s ∈ segs.map (replaceTokSeg kv.1 kv.2), segWF s = true := by
      intro s hs
      rcases List.mem_map.mp hs with ⟨s₀, hs₀, rfl⟩
      have := hwf s₀ hs₀
      match s₀ with
      | .lit l => exact this
      | .tok n =>
        by_cases hkn : n = kv.1
        · simp [replaceTokSeg, hkn, segWF, hv]
        · simp [replaceTokSeg, hkn]
          exact this
    rw [ih (segs.map (replaceTokSeg kv.1 kv.2)) hrest hwf']
    rfl

theorem applyTable_eq_map_resolveTok :
    ∀ (table : List (Str × Str)) (segs : List Seg),
      applyTable table segs = segs.map (resolveTok table) := by
  intro table
  induction table with
  | nil =>
    intro segs
    have : segs.map (resolveTok []) = segs.map id :=
      List.map_congr_left (fun s _ => by cases s <;> rfl)
    rw [applyTable, List.foldl_nil, this, List.map_id]
  | cons kv rest ih =>
    intro segs
    have hstep : applyTable (kv :: rest) segs
        = applyTable rest (segs.map (replaceTokSeg kv.1 kv.2)) := rfl
    rw [hstep, ih, List.map_map]
    refine List.map_congr_left (fun s _ => ?_)
    match s with
    | .lit l => rfl
    | .tok n =>
      by_cases hkn : n = kv.1
      · simp [Function.comp, replaceTokSeg, hkn, resolveTok, lookupStr]
      · have hkn' : ¬ (kv.1 = n) := fun h => hkn h.symm
        simp [Function.comp, replaceTokSeg, hkn, resolveTok, lookupStr, hkn']

/-! ### Code generators (`generate_qr_svg`, `generate_barcode_svg`) -/

/-- Python `int()` on a rational: truncation toward zero
(`Int` division in Lean is T-division, matching Python `int(float)`). -/
def pyInt (q : ℚ) : ℤ := q.num / (q.den : ℤ)

/-- `data.isdigit()` in Python: non-empty and every character a digit
(modelled over the ASCII digits used by the numeric symbologies). -/
def pyIsdigit (s : Str) : Bool := !s.isEmpty && s.all Char.isDigit

/-- `data.startswith('{') and data.endswith('}')` from `generate_barcode_svg`. -/
def isPlaceholderToken (s : Str) : Bool :=
  (s.head? == some lbrace) && (s.getLast? == some rbrace)

def CODE128 : Str := "CODE128".toList

/-- `valid_formats` in `generate_barcode_svg`. -/
def validBarcodeFormats : List Str :=
  ["CODE128".toList, "CODE39".toList, "EAN13".toList, "EAN8".toList,
    "UPCA".toList, "UPCE".toList]

/-- The digits-only symbologies checked in `generate_barcode_svg`. -/
def numericOnlyFormats : List Str :=
  ["EAN13".toList, "EAN8".toList, "UPCA".toList, "UPCE".toList]

/-- The format-selection steps of `generate_barcode_svg` (lines 298-312):
first coerce an unknown requested format to CODE128, then force CODE128 for
unresolved placeholder tokens, then fall back to CODE128 when a digits-only
symbology is requested for non-digit data. -/
def effectiveBarcodeFormat (data fmtReq : Str) : Str :=
  let f1 := if validBarcodeFormats.contains fmtReq then fmtReq else CODE128
  if isPlaceholderToken data then CODE128
  else if numericOnlyFormats.contains f1 && !pyIsdigit data then CODE128
  else f1

/-- QR error-correction levels (`ec_map` keys). -/
inductive EcLevel
  | L
  | M
  | Q
  | H
deriving DecidableEq

/-- `ec_map.get(error_correction, ERROR_CORRECT_M)`. -/
def resolveEc (s : Str) : EcLevel :=
  if s = "L".toList then .L
  else if s = "M".toList then .M
  else if s = "Q".toList then .Q
  else if s = "H".toList then .H
  else .M

/-- The third-party `qrcode` encoder as an oracle: `none` models a raised
exception anywhere inside the `try` block of `generate_qr_svg`. -/
abbrev QrEncoder := EcLevel → Str → Option Str

/-- The third-party `barcode` encoder as an oracle on
(format, data, show_label): `none` models a raised encoder exception. -/
abbrev BarcodeEncoder := Str → Str → Bool → Option Str

/-- The vector fragment returned by a code generator: either a successful
code scaled to the requested `width`×`height` box, or the fixed light-grey
"QR Error"/"Barcode Error" placeholder of the same box. -/
inductive SvgFragment
  | qrOk (width height : ℚ) (body : Str)
  | qrError (width height : ℚ)
  | barcodeOk (width height : ℚ) (png : Str)
  | barcodeError (width height : ℚ)
deriving DecidableEq

/-- `generate_qr_svg(data, width, height, error_correction)`: encode via the
library; any exception is caught and the placeholder SVG (lightgray rectangle
with the "QR Error" caption, sized `width`×`height`) is returned.
There is no special case for zero-length data in the source. -/
def generate_qr_svg (data : Str) (width height : ℚ) (ec : Str)
    (enc : QrEncoder) : SvgFragment :=
  match enc (resolveEc ec) data with
  | some body => .qrOk width height body
  | none => .qrError width height

/-- `generate_barcode_svg(data, format_type, width, height, show_label)`:
select the effective format, attempt encoding, on an encoder exception retry
once with CODE128, and on a second exception return the "Barcode Error"
placeholder sized to the requested box. -/
def generate_barcode_svg (data fmtReq : Str) (width height : ℚ)
    (showLabel : Bool) (enc : BarcodeEncoder) : SvgFragment :=
  let fmt := effectiveBarcodeFormat data fmtReq
  match enc fmt data showLabel with
  | some png => .barcodeOk width height png
  | none =>
    match enc CODE128 data showLabel with
    | some png => .barcodeOk width height png
    | none => .barcodeError width height

/-! ### Vector renderer (`render_template_to_svg`) -/

/-- `MM_TO_PX = 3.78` in `render_template_to_svg` (96 DPI). -/
def MM_TO_PX : ℚ := 189 / 50

/-- XML escaping applied to text content: sequential `str.replace` of
`&`, `<`, `>`, `"`. -/
def xmlEscape (s : Str) : Str :=
  replaceAll "\"".toList "&quot;".toList
    (replaceAll ">".toList "&gt;".toList
      (replaceAll "<".toList "&lt;".toList
        (replaceAll "&".toList "&amp;".toList s)))

inductive TextAlign
  | left
  | center
  | right
deriving DecidableEq

structure TextEl where
  xMm : ℚ
  yMm : ℚ
  widthMm : ℚ
  heightMm : ℚ
  content : Str
  fontSizeMm : ℚ
  fontSizePxLegacy : ℚ
  color : Str
  textAlign : TextAlign
  fontFamily : Str
deriving DecidableEq

structure QrEl where
  xMm : ℚ
  yMm : ℚ
  widthMm : ℚ
  heightMm : ℚ
  sourceField : Str
deriving DecidableEq

structure BarcodeEl where
  xMm : ℚ
  yMm : ℚ
  widthMm : ℚ
  heightMm : ℚ
  sourceField : Str
  format : Str
  showLabel : Bool
deriving DecidableEq

/-- The tagged union of layout element kinds dispatched on
`element['type']` in the renderer. -/
inductive LayoutElement
  | text (e : TextEl)
  | qr (e : QrEl)
  | barcode (e : BarcodeEl)
deriving DecidableEq

/-- Modelled from the spec: the `StickerTemplate` snapshot that the renderer
borrows (the persistence class itself is not part of the rendering module;
spec section 3 gives identity, name, `width_mm`/`height_mm` and the ordered
element list, which the renderer reads through `get_layout()`). -/
structure Template where
  name : Str
  widthMm : ℚ
  heightMm : ℚ
  layout : List LayoutElement
deriving DecidableEq

/-- One node of the emitted SVG document. -/
inductive RenderedFrag
  | background (width height : ℚ)
  | textNode (x y fontSizePx : ℚ) (color : Str) (anchor : Str) (content : Str)
      (fontFamily : Str)
  | qrAt (x y : ℚ) (frag : SvgFragment)
  | barcodeAt (x y : ℚ) (frag : SvgFragment)
deriving DecidableEq

/-- `font_family or 'Arial'`, with `'default'` also mapped to Arial, and
single-quoting for family names containing a space. -/
def singleQuote : Char := Char.ofNat 39

def resolveFontFamily (f : Str) : Str :=
  let fam := if f = [] ∨ f = "default".toList then "Arial".toList else f
  if fam.contains ' ' then singleQuote :: (fam ++ [singleQuote]) else fam

/-- The body of the per-element loop of `render_template_to_svg`. -/
def renderOneElement (data : List (Str × Str)) (qenc : QrEncoder)
    (benc : BarcodeEncoder) : LayoutElement → RenderedFrag
  | .text e =>
    let content := xmlEscape (replace_placeholders e.content data)
    let fontSize := if e.fontSizeMm ≠ 0 then e.fontSizeMm * MM_TO_PX
      else e.fontSizePxLegacy
    let xPx := e.xMm * MM_TO_PX
    let wPx := e.widthMm * MM_TO_PX
    let anchorX : Str × ℚ :=
      match e.textAlign with
      | .left => ("start".toList, xPx)
      | .center => ("middle".toList, xPx + wPx / 2)
      | .right => ("end".toList, xPx + wPx)
    .textNode anchorX.2 (e.yMm * MM_TO_PX) fontSize e.color anchorX.1 content
      (resolveFontFamily e.fontFamily)
  | .qr e =>
    let qrData := replace_placeholders e.sourceField data
    .qrAt (e.xMm * MM_TO_PX) (e.yMm * MM_TO_PX)
      (generate_qr_svg qrData ((pyInt (e.widthMm * MM_TO_PX) : ℤ) : ℚ)
        ((pyInt (e.heightMm * MM_TO_PX) : ℤ) : ℚ) "M".toList qenc)
  | .barcode e =>
    let barcodeData := replace_placeholders e.sourceField data
    .barcodeAt (e.xMm * MM_TO_PX) (e.yMm * MM_TO_PX)
      (generate_barcode_svg barcodeData e.format
        ((pyInt (e.widthMm * MM_TO_PX) : ℤ) : ℚ)
        ((pyInt (e.heightMm * MM_TO_PX) : ℤ) : ℚ) e.showLabel benc)

/-- The element loop, in layout order. -/
def renderElements (data : List (Str × Str)) (qenc : QrEncoder)
    (benc : BarcodeEncoder) : List LayoutElement → List RenderedFrag
  | [] => []
  | el :: rest =>
    renderOneElement data qenc benc el :: renderElements data qenc benc rest

/-- `render_template_to_svg(template, data)`: the white background rectangle
followed by one fragment per layout element, in order. -/
def render_template_to_svg (t : Template) (data : List (Str × Str))
    (qenc : QrEncoder) (benc : BarcodeEncoder) : List RenderedFrag :=
  .background (t.widthMm * MM_TO_PX) (t.heightMm * MM_TO_PX)
    :: renderElements data qenc benc t.layout

/-! ### Print compositor
(`generate_single_sticker_pdf`, `generate_batch_stickers_pdf`) -/

/-- `MM_TO_IN = 1 / 25.4`. -/
def MM_TO_IN : ℚ := 5 / 127

abbrev Pdf := Str

/-- The single-sticker HTML document handed to the PDF engine:
an `@page` sized in inches and one sticker `div` holding the rendered SVG. -/
structure SingleDoc where
  pageWidthIn : ℚ
  pageHeightIn : ℚ
  sticker : List RenderedFrag
deriving DecidableEq

/-- The batch HTML document: one shared `@page` geometry in inches and one
sticker `div` per record, each forcing a page break. -/
structure BatchDoc where
  pageWidthIn : ℚ
  pageHeightIn : ℚ
  pages : List (List RenderedFrag)
deriving DecidableEq

/-- The WeasyPrint engine as an oracle. `Except.error` models `write_pdf`
raising; an unavailable engine (`ImportError` on `from weasyprint import`)
is the `none` case of the surrounding `Option`. -/
abbrev SingleEngine := SingleDoc → Except Str Pdf

abbrev BatchEngine := BatchDoc → Except Str Pdf

/-- Return value of `generate_single_sticker_pdf`: PDF bytes, or the
pre-composition rendered SVG bytes as fallback. -/
inductive SingleOut
  | pdf (p : Pdf)
  | svgFallback (doc : List RenderedFrag)
deriving DecidableEq

def mkSingleDoc (t : Template) (svg : List RenderedFrag) : SingleDoc :=
  { pageWidthIn := t.widthMm * MM_TO_IN
    pageHeightIn := t.heightMm * MM_TO_IN
    sticker := svg }

/-- `generate_single_sticker_pdf(template, data, identifier)`: if WeasyPrint
cannot be imported, render the SVG and return it; otherwise render, compose,
and on any `write_pdf` exception return the same SVG instead. -/
def generate_single_sticker_pdf (t : Template) (data : List (Str × Str))
    (qenc : QrEncoder) (benc : BarcodeEncoder)
    (engine : Option SingleEngine) : SingleOut :=
  match engine with
  | none => .svgFallback (render_template_to_svg t data qenc benc)
  | some write =>
    let svg := render_template_to_svg t data qenc benc
    match write (mkSingleDoc t svg) with
    | .ok p => .pdf p
    | .error _ => .svgFallback svg

/-- The per-record loop of `generate_batch_stickers_pdf`, in record order:
`data = data_getter(record); svg = render_template_to_svg(template, data)`. -/
def batchStickerDivs {R : Type} (t : Template) (getter : R → List (Str × Str))
    (qenc : QrEncoder) (benc : BarcodeEncoder) : List R → List (List RenderedFrag)
  | [] => []
  | r :: rest =>
    render_template_to_svg t (getter r) qenc benc
      :: batchStickerDivs t getter qenc benc rest

/-- The batch HTML document built by `generate_batch_stickers_pdf` before the
engine runs: shared page geometry, one sticker per record. -/
def generate_batch_html {R : Type} (t : Template) (records : List R)
    (getter : R → List (Str × Str)) (qenc : QrEncoder) (benc : BarcodeEncoder) :
    BatchDoc :=
  { pageWidthIn := t.widthMm * MM_TO_IN
    pageHeightIn := t.heightMm * MM_TO_IN
    pages := batchStickerDivs t getter qenc benc records }

def importErrorMsg : Str := "WeasyPrint not installed".toList

/-- `generate_batch_stickers_pdf(template, records, data_getter)`: raises
`ImportError` when WeasyPrint is unavailable, and `doc.write_pdf` is not
wrapped in a `try`, so an engine exception propagates to the caller. -/
def generate_batch_stickers_pdf {R : Type} (t : Template) (records : List R)
    (getter : R → List (Str × Str)) (qenc : QrEncoder) (benc : BarcodeEncoder)
    (engine : Option BatchEngine) : Except Str Pdf :=
  match engine with
  | none => .error importErrorMsg
  | some write => write (generate_batch_html t records getter qenc benc)

/-! ### Route-level checks (`routes/qr_template.py`) -/

/-- `data.get('mm_to_px', 24.6)` in `preview_element`: the element-preview
scale is taken from the request body, defaulting to 24.6. -/
def preview_element_mm_to_px (req : Option ℚ) : ℚ := req.getD (123 / 5)

/-- `width = int(width_mm * mm_to_px); height = int(height_mm * mm_to_px)`
in `preview_element`. -/
def preview_element_px_box (widthMm heightMm : ℚ) (req : Option ℚ) : ℤ × ℤ :=
  (pyInt (widthMm * preview_element_mm_to_px req),
    pyInt (heightMm * preview_element_mm_to_px req))

/-- A parsed Python float: a finite rational, or one of the IEEE specials
`float('nan')`, `float('inf')`, `float('-inf')` that `float(form_value)`
can produce. -/
inductive PyFloat
  | finite (q : ℚ)
  | nan
  | inf
  | ninf
deriving DecidableEq

/-- Python `<` on floats: any comparison with NaN is false. -/
def pyLt : PyFloat → PyFloat → Bool
  | .finite a, .finite b => decide (a < b)
  | .nan, _ => false
  | _, .nan => false
  | .ninf, .ninf => false
  | .ninf, _ => true
  | _, .ninf => false
  | .inf, _ => false
  | .finite _, .inf => true

def pyGt (a b : PyFloat) : Bool := pyLt b a

/-- `not (v < 5 or v > 500)`: the size check shared verbatim by
`create_qr_template` (lines 51-58) and the PUT branch of `api_qr_template`
(lines 114-126). `true` means the value passes validation and is saved. -/
def template_size_accepted (v : PyFloat) : Bool :=
  !(pyLt v (.finite 5) || pyGt v (.finite 500))

/-- `create_qr_template` accepts and stores the geometry iff both
dimensions pass the size check. -/
def create_qr_template_accepts (w h : PyFloat) : Bool :=
  template_size_accepted w && template_size_accepted h

/-- The PUT branch of `api_qr_template` accepts and stores the geometry iff
both dimensions pass the size check. -/
def api_qr_template_put_accepts (w h : PyFloat) : Bool :=
  template_size_accepted w && template_size_accepted h

/-! ### Helper lemmas and sample inputs -/

theorem pyIsdigit_not_placeholder {s : Str} (h : pyIsdigit s = true) :
    isPlaceholderToken s = false := by
  match s with
  | [] => simp [pyIsdigit] at h
  | c :: t =>
    rw [pyIsdigit, Bool.and_eq_true] at h
    have hc : c.isDigit = true :=
      List.all_eq_true.mp h.2 c (List.mem_cons_self c t)
    have hlb : lbrace.isDigit = false := by decide
    have hne : c ≠ lbrace := by
      intro he
      rw [he, hlb] at hc
      exact Bool.false_ne_true hc
    rw [isPlaceholderToken]
    simp [hne]

theorem renderElements_eq_map (data : List (Str × Str)) (qenc : QrEncoder)
    (benc : BarcodeEncoder) (els : List LayoutElement) :
    renderElements data qenc benc els = els.map (renderOneElement data qenc benc) := by
  induction els with
  | nil => rfl
  | cons e rest ih => simp [renderElements, ih]

theorem batchStickerDivs_eq_map {R : Type} (t : Template)
    (getter : R → List (Str × Str)) (qenc : QrEncoder) (benc : BarcodeEncoder)
    (records : List R) :
    batchStickerDivs t getter qenc benc records
      = records.map (fun r => render_template_to_svg t (getter r) qenc benc) := by
  induction records with
  | nil => rfl
  | cons r rest ih => simp [batchStickerDivs, ih]

def sampleData : List (Str × Str) :=
  [("ItemName".toList, "Resistor 10k".toList),
    ("ItemUUID".toList, "AB12CD34EF56".toList)]

def sampleData2 : List (Str × Str) :=
  [("ItemName".toList, "Capacitor 4u7".toList),
    ("ItemUUID".toList, "ZZ99".toList)]

def sampleTextEl : TextEl :=
  { xMm := 1, yMm := 2, widthMm := 20, heightMm := 5,
    content := "{ItemName}".toList, fontSizeMm := 4, fontSizePxLegacy := 12,
    color := "#000000".toList, textAlign := .center,
    fontFamily := "Arial".toList }

def sampleQrEl : QrEl :=
  { xMm := 5, yMm := 8, widthMm := 10, heightMm := 10,
    sourceField := "{ItemUUID}".toList }

def sampleTemplate : Template :=
  { name := "Demo".toList, widthMm := 30, heightMm := 20,
    layout := [.text sampleTextEl, .qr sampleQrEl] }

/-- An encoder oracle that succeeds on everything. -/
def qrEncOk : QrEncoder := fun _ d => some d

/-- An encoder oracle that raises exactly on one input. -/
def qrEncFailOn (bad : Str) : QrEncoder := fun _ d => if d = bad then none else some d

def barEncOk : BarcodeEncoder := fun _ d _ => some d

/-! ### Claim theorems -/

/-- C2: barcode format-selection policy — a `{...}` placeholder-token data
string forces CODE128 regardless of the requested format; a digits-only
symbology requested for non-digit data falls back to CODE128; all-digit data
with a digits-only requested format keeps the requested format unchanged. -/
theorem barcode_format_selection_policy (data fmtReq : Str) :
    (isPlaceholderToken data = true →
      effectiveBarcodeFormat data fmtReq = CODE128) ∧
    (numericOnlyFormats.contains fmtReq = true → isPlaceholderToken data = false →
      pyIsdigit data = false → effectiveBarcodeFormat data fmtReq = CODE128) ∧
    (numericOnlyFormats.contains fmtReq = true → pyIsdigit data = true →
      effectiveBarcodeFormat data fmtReq = fmtReq) := by
  refine ⟨?_, ?_, ?_⟩
  · intro hp
    simp [effectiveBarcodeFormat, hp]
  · intro hf hp hd
    have hmem : fmtReq ∈ numericOnlyFormats := by
      simpa using hf
    fin_cases hmem <;>
      simp [effectiveBarcodeFormat, hp, hd, validBarcodeFormats, numericOnlyFormats]
  · intro hf hd
    have hp : isPlaceholderToken data = false := pyIsdigit_not_placeholder hd
    have hmem : fmtReq ∈ numericOnlyFormats := by
      simpa using hf
    fin_cases hmem <;>
      simp [effectiveBarcodeFormat, hp, hd, validBarcodeFormats, numericOnlyFormats]

theorem barcode_format_selection_policy_witness :
    effectiveBarcodeFormat "{ItemUUID}".toList "EAN13".toList = CODE128 ∧
    effectiveBarcodeFormat "ABC123".toList "EAN13".toList = CODE128 ∧
    effectiveBarcodeFormat "5012345678900".toList "EAN13".toList = "EAN13".toList :=
  ⟨(barcode_format_selection_policy "{ItemUUID}".toList "EAN13".toList).1 (by decide),
    (barcode_format_selection_policy "ABC123".toList "EAN13".toList).2.1
      (by decide) (by decide) (by decide),
    (barcode_format_selection_policy "5012345678900".toList "EAN13".toList).2.2
      (by decide) (by decide)⟩

/-- C10: a requested format outside the closed valid set is silently coerced
to CODE128 (before the other selection steps, which then keep CODE128), not
rejected. -/
theorem barcode_unknown_format_coerced (data fmtReq : Str)
    (h : validBarcodeFormats.contains fmtReq = false) :
    effectiveBarcodeFormat data fmtReq = CODE128 := by
  have hmem : fmtReq ∉ validBarcodeFormats := by simpa using h
  have hnum : CODE128 ∉ numericOnlyFormats := by decide
  by_cases hp : isPlaceholderToken data <;>
    simp [effectiveBarcodeFormat, hmem, hp, hnum]

theorem barcode_unknown_format_coerced_witness :
    validBarcodeFormats.contains "QRCODE".toList = false ∧
    effectiveBarcodeFormat "123".toList "QRCODE".toList = CODE128 :=
  ⟨by decide, barcode_unknown_format_coerced "123".toList "QRCODE".toList (by decide)⟩

/-- C9 counterexample: `generate_qr_svg` has no zero-length special case —
with an encoder that accepts empty data (as the real `qrcode` library does),
zero-length input yields a successful fragment, not the "QR Error"
placeholder. -/
theorem generate_qr_svg_zero_length_not_placeholder :
    generate_qr_svg [] 10 10 "M".toList (fun _ _ => some []) = SvgFragment.qrOk 10 10 []
      ∧ generate_qr_svg [] 10 10 "M".toList (fun _ _ => some [])
          ≠ SvgFragment.qrError 10 10 :=
  ⟨rfl, fun h => SvgFragment.noConfusion h⟩

/-- C9 amended: the QR generator returns the "QR Error" placeholder sized to
the requested bounding box exactly when the encoder raises; otherwise it
returns the encoded fragment at that box. Zero-length data is passed to the
encoder like any other input. -/
theorem generate_qr_svg_placeholder_iff_encoder_raises (data : Str) (w h : ℚ)
    (ec : Str) (enc : QrEncoder) :
    (enc (resolveEc ec) data = none →
      generate_qr_svg data w h ec enc = SvgFragment.qrError w h) ∧
    (∀ body, enc (resolveEc ec) data = some body →
      generate_qr_svg data w h ec enc = SvgFragment.qrOk w h body) := by
  constructor
  · intro hnone
    simp [generate_qr_svg, hnone]
  · intro body hsome
    simp [generate_qr_svg, hsome]

theorem generate_qr_svg_placeholder_iff_encoder_raises_witness :
    generate_qr_svg "boom".toList 10 10 "M".toList (fun _ _ => none)
        = SvgFragment.qrError 10 10 ∧
    generate_qr_svg "AB12".toList 20 20 "M".toList (fun _ d => some d)
        = SvgFragment.qrOk 20 20 "AB12".toList :=
  ⟨(generate_qr_svg_placeholder_iff_encoder_raises "boom".toList 10 10 "M".toList
      (fun _ _ => none)).1 rfl,
    (generate_qr_svg_placeholder_iff_encoder_raises "AB12".toList 20 20 "M".toList
      (fun _ d => some d)).2 "AB12".toList rfl⟩

/-- C6 counterexample: the element-preview route does not use the renderer's
fixed 3.78 mm→px constant — its default is 24.6 and it is runtime-configurable
through the request body. -/
theorem preview_element_scale_differs_from_renderer :
    preview_element_mm_to_px none ≠ MM_TO_PX ∧
    preview_element_mm_to_px (some 2) ≠ preview_element_mm_to_px none := by
  constructor
  · show (123 / 5 : ℚ) ≠ 189 / 50
    norm_num
  · show (2 : ℚ) ≠ 123 / 5
    norm_num

/-- C6 amended: the template-rendering path scales all geometry by the fixed
constant 3.78, while the element-preview route scales by a client-supplied
`mm_to_px` defaulting to 24.6 — the two paths do not share one constant, and
the element-preview scale is runtime-configurable. -/
theorem mm_to_px_constants_diverge (t : Template) (data : List (Str × Str))
    (qenc : QrEncoder) (benc : BarcodeEncoder) :
    (render_template_to_svg t data qenc benc).head?
        = some (.background (t.widthMm * MM_TO_PX) (t.heightMm * MM_TO_PX)) ∧
    MM_TO_PX = 189 / 50 ∧
    preview_element_mm_to_px none = 123 / 5 ∧
    (∀ q : ℚ, preview_element_mm_to_px (some q) = q) ∧
    (∀ wMm hMm : ℚ, ∀ req : Option ℚ,
      preview_element_px_box wMm hMm req
        = (pyInt (wMm * preview_element_mm_to_px req),
            pyInt (hMm * preview_element_mm_to_px req))) :=
  ⟨rfl, rfl, rfl, fun _ => rfl, fun _ _ _ => rfl⟩

/-- C7: the route-level size validation (`if v < 5 or v > 500`) of both the
create and update operations accepts `float('nan')`, because every comparison
with NaN is false — so a stored template can violate the 5–500 mm invariant.
For finite values the check accepts exactly the interval `[5, 500]`. -/
theorem template_size_validation_nan_slip :
    create_qr_template_accepts PyFloat.nan (PyFloat.finite 20) = true ∧
    api_qr_template_put_accepts PyFloat.nan (PyFloat.finite 20) = true ∧
    (∀ q : ℚ, template_size_accepted (PyFloat.finite q)
        = (decide (5 ≤ q) && decide (q ≤ 500))) := by
  refine ⟨by decide, by decide, ?_⟩
  intro q
  by_cases h1 : q < 5 <;> by_cases h2 : 500 < q <;>
    simp [template_size_accepted, pyLt, pyGt, h1, h2]
  all_goals first
  | linarith
  | exact ⟨by linarith, by linarith⟩

/-- C1: rendering is total over every template, data context and codec
behaviour — the document always contains the background plus exactly one
fragment per element, each element's fragment depends only on that element
and the data context, and an element whose encoder raises contributes its
own error placeholder at its bounding box while all other elements still
render. -/
theorem render_never_aborts_on_element_failure (t : Template)
    (data : List (Str × Str)) (qenc : QrEncoder) (benc : BarcodeEncoder) :
    (render_template_to_svg t data qenc benc).length = t.layout.length + 1 ∧
    (∀ i el, t.layout[i]? = some el →
      (render_template_to_svg t data qenc benc)[i + 1]?
        = some (renderOneElement data qenc benc el)) ∧
    (∀ i e, t.layout[i]? = some (.qr e) →
      qenc (resolveEc "M".toList) (replace_placeholders e.sourceField data) = none →
      (render_template_to_svg t data qenc benc)[i + 1]?
        = some (.qrAt (e.xMm * MM_TO_PX) (e.yMm * MM_TO_PX)
            (.qrError ((pyInt (e.widthMm * MM_TO_PX) : ℤ) : ℚ)
              ((pyInt (e.heightMm * MM_TO_PX) : ℤ) : ℚ)))) ∧
    (∀ i e, t.layout[i]? = some (.barcode e) →
      benc (effectiveBarcodeFormat (replace_placeholders e.sourceField data) e.format)
          (replace_placeholders e.sourceField data) e.showLabel = none →
      benc CODE128 (replace_placeholders e.sourceField data) e.showLabel = none →
      (render_template_to_svg t data qenc benc)[i + 1]?
        = some (.barcodeAt (e.xMm * MM_TO_PX) (e.yMm * MM_TO_PX)
            (.barcodeError ((pyInt (e.widthMm * MM_TO_PX) : ℤ) : ℚ)
              ((pyInt (e.heightMm * MM_TO_PX) : ℤ) : ℚ)))) := by
  have hidx : ∀ i el, t.layout[i]? = some el →
      (render_template_to_svg t data qenc benc)[i + 1]?
        = some (renderOneElement data qenc benc el) := by
    intro i el hel
    rw [render_template_to_svg, List.getElem?_cons_succ,
      renderElements_eq_map, List.getElem?_map, hel]
    rfl
  refine ⟨?_, hidx, ?_, ?_⟩
  · rw [render_template_to_svg]
    simp [renderElements_eq_map]
  · intro i e hel hnone
    rw [hidx i (.qr e) hel]
    simp only [renderOneElement, generate_qr_svg]
    rw [hnone]
  · intro i e hel hnone1 hnone2
    rw [hidx i (.barcode e) hel]
    simp only [renderOneElement, generate_barcode_svg]
    rw [hnone1, hnone2]

theorem render_never_aborts_on_element_failure_witness :
    (render_template_to_svg sampleTemplate sampleData
        (qrEncFailOn "AB12CD34EF56".toList) barEncOk).length
      = sampleTemplate.layout.length + 1 ∧
    (render_template_to_svg sampleTemplate sampleData
        (qrEncFailOn "AB12CD34EF56".toList) barEncOk)[2]?
      = some (.qrAt (sampleQrEl.xMm * MM_TO_PX) (sampleQrEl.yMm * MM_TO_PX)
          (.qrError ((pyInt (sampleQrEl.widthMm * MM_TO_PX) : ℤ) : ℚ)
            ((pyInt (sampleQrEl.heightMm * MM_TO_PX) : ℤ) : ℚ))) ∧
    (render_template_to_svg sampleTemplate sampleData
        (qrEncFailOn "AB12CD34EF56".toList) barEncOk)[1]?
      = some (renderOneElement sampleData (qrEncFailOn "AB12CD34EF56".toList)
          barEncOk (.text sampleTextEl)) :=
  ⟨(render_never_aborts_on_element_failure sampleTemplate sampleData
      (qrEncFailOn "AB12CD34EF56".toList) barEncOk).1,
    (render_never_aborts_on_element_failure sampleTemplate sampleData
      (qrEncFailOn "AB12CD34EF56".toList) barEncOk).2.2.1 1 sampleQrEl
      (by decide) (by decide),
    (render_never_aborts_on_element_failure sampleTemplate sampleData
      (qrEncFailOn "AB12CD34EF56".toList) barEncOk).2.1 0 (.text sampleTextEl)
      (by decide)⟩

/-- C8: batch composition builds exactly one page per entity under one shared
page geometry, and the page for entity `i` is the render of the template
against entity `i`'s own data dictionary alone. -/
theorem batch_one_page_per_entity {R : Type} (t : Template) (records : List R)
    (getter : R → List (Str × Str)) (qenc : QrEncoder) (benc : BarcodeEncoder) :
    (generate_batch_html t records getter qenc benc).pages.length = records.length ∧
    (∀ (i : ℕ) (r : R), records[i]? = some r →
      (generate_batch_html t records getter qenc benc).pages[i]?
        = some (render_template_to_svg t (getter r) qenc benc)) ∧
    (generate_batch_html t records getter qenc benc).pageWidthIn
        = t.widthMm * MM_TO_IN ∧
    (generate_batch_html t records getter qenc benc).pageHeightIn
        = t.heightMm * MM_TO_IN := by
  refine ⟨?_, ?_, rfl, rfl⟩
  · rw [generate_batch_html]
    simp [batchStickerDivs_eq_map]
  · intro i r hr
    rw [generate_batch_html]
    simp only [batchStickerDivs_eq_map, List.getElem?_map, hr]
    rfl

theorem batch_one_page_per_entity_witness :
    (generate_batch_html sampleTemplate [sampleData, sampleData2]
        (fun d => d) qrEncOk barEncOk).pages.length = 2 ∧
    (generate_batch_html sampleTemplate [sampleData, sampleData2]
        (fun d => d) qrEncOk barEncOk).pages[0]?
      = some (render_template_to_svg sampleTemplate sampleData qrEncOk barEncOk) ∧
    (generate_batch_html sampleTemplate [sampleData, sampleData2]
        (fun d => d) qrEncOk barEncOk).pages[1]?
      = some (render_template_to_svg sampleTemplate sampleData2 qrEncOk barEncOk) :=
  ⟨(batch_one_page_per_entity sampleTemplate [sampleData, sampleData2]
      (fun d => d) qrEncOk barEncOk).1,
    (batch_one_page_per_entity sampleTemplate [sampleData, sampleData2]
      (fun d => d) qrEncOk barEncOk).2.1 0 sampleData (by decide),
    (batch_one_page_per_entity sampleTemplate [sampleData, sampleData2]
      (fun d => d) qrEncOk barEncOk).2.1 1 sampleData2 (by decide)⟩

/-- C4 counterexample: batch composition does surface a hard failure — with
the PDF engine unavailable it raises `ImportError('WeasyPrint not
installed')` instead of returning the rendered vector document. -/
theorem batch_pdf_import_error_surfaces :
    generate_batch_stickers_pdf sampleTemplate [sampleData] (fun d => d)
        qrEncOk barEncOk none
      = Except.error importErrorMsg := rfl

/-- C4 amended: only single-sticker composition degrades to the rendered
vector document when the PDF engine is unavailable or raises; batch
composition raises `ImportError` when the engine is unavailable and
propagates any engine exception to the caller. -/
theorem single_pdf_falls_back_batch_raises {R : Type} (t : Template)
    (data : List (Str × Str)) (records : List R)
    (getter : R → List (Str × Str)) (qenc : QrEncoder) (benc : BarcodeEncoder) :
    (generate_single_sticker_pdf t data qenc benc none
        = .svgFallback (render_template_to_svg t data qenc benc)) ∧
    (∀ (write : SingleEngine) (msg : Str),
      write (mkSingleDoc t (render_template_to_svg t data qenc benc)) = .error msg →
      generate_single_sticker_pdf t data qenc benc (some write)
        = .svgFallback (render_template_to_svg t data qenc benc)) ∧
    (generate_batch_stickers_pdf t records getter qenc benc none
        = .error importErrorMsg) ∧
    (∀ (write : BatchEngine) (msg : Str),
      write (generate_batch_html t records getter qenc benc) = .error msg →
      generate_batch_stickers_pdf t records getter qenc benc (some write)
        = .error msg) := by
  refine ⟨rfl, ?_, rfl, ?_⟩
  · intro write msg hw
    simp [generate_single_sticker_pdf, hw]
  · intro write msg hw
    simp [generate_batch_stickers_pdf, hw]

theorem single_pdf_falls_back_batch_raises_witness :
    generate_single_sticker_pdf sampleTemplate sampleData qrEncOk barEncOk
        (some (fun _ => .error "pdf fail".toList))
      = .svgFallback (render_template_to_svg sampleTemplate sampleData qrEncOk barEncOk) ∧
    generate_batch_stickers_pdf sampleTemplate [sampleData] (fun d => d)
        qrEncOk barEncOk (some (fun _ => .error "pdf fail".toList))
      = .error "pdf fail".toList :=
  ⟨(single_pdf_falls_back_batch_raises sampleTemplate sampleData [sampleData]
      (fun d => d) qrEncOk barEncOk).2.1 (fun _ => .error "pdf fail".toList)
      "pdf fail".toList rfl,
    (single_pdf_falls_back_batch_raises sampleTemplate sampleData [sampleData]
      (fun d => d) qrEncOk barEncOk).2.2.2 (fun _ => .error "pdf fail".toList)
      "pdf fail".toList rfl⟩

/-- C3 counterexample: resolution is not a simultaneous single-pass
substitution — the value substituted for `{A}` is re-scanned by the later
token `{B}`'s replacement pass, so the sequential result `"x"` differs from
the single-pass result `"{B}"`. -/
theorem replace_placeholders_rescans_later_tokens :
    replace_placeholders "{A}".toList
        [("A".toList, "{B}".toList), ("B".toList, "x".toList)] = "x".toList ∧
    flattenSegs ([Seg.tok "A".toList].map
        (resolveTok [("A".toList, "{B}".toList), ("B".toList, "x".toList)]))
      = "{B}".toList ∧
    ("x".toList : Str) ≠ "{B}".toList := ⟨by decide, by decide, by decide⟩

/-- C3 amended: substitution is sequential per token in table order; for each
single token the pass is one-pass and simultaneous — the substituted value is
never re-scanned for that token, even when the value contains the token's own
literal text — but a value substituted for an earlier token is re-scanned by
the passes of strictly later tokens. -/
theorem replace_placeholders_single_token_one_pass (k v : Str)
    (segs : List Seg) (hk : braceFree k = true)
    (hwf : ∀ s ∈ segs, segWF s = true) :
    replace_placeholders (flattenSegs segs) [(k, v)]
      = flattenSegs (segs.map (replaceTokSeg k v)) := by
  have hstep : replace_placeholders (flattenSegs segs) [(k, v)]
      = replaceAll (tokenOf k) v (flattenSegs segs) := rfl
  rw [hstep, replaceAll_token_flatten v hk segs hwf]

theorem replace_placeholders_single_token_one_pass_witness :
    braceFree "A".toList = true ∧
    replace_placeholders (flattenSegs [Seg.tok "A".toList, Seg.lit " end".toList])
        [("A".toList, "<{A}>".toList)]
      = flattenSegs ([Seg.tok "A".toList, Seg.lit " end".toList].map
          (replaceTokSeg "A".toList "<{A}>".toList)) ∧
    replace_placeholders "{A} end".toList [("A".toList, "<{A}>".toList)]
      = "<{A}> end".toList :=
  ⟨by decide,
    replace_placeholders_single_token_one_pass "A".toList "<{A}>".toList
      [Seg.tok "A".toList, Seg.lit " end".toList] (by decide) (by decide),
    by decide⟩

/-- C5 counterexample: when a data value contains the literal text of a later
token, a known token is not replaced by its own value byte-for-byte — `{K}`
with value `"{Q}"` ends up as `"z"` in the output, not `"{Q}"`. -/
theorem replace_placeholders_value_not_preserved :
    replace_placeholders "{K}".toList
        [("K".toList, "{Q}".toList), ("Q".toList, "z".toList)] = "z".toList ∧
    ("z".toList : Str) ≠ "{Q}".toList := ⟨by decide, by decide⟩

/-- C5 amended: provided every key and every data value is brace-free (the
shape of the real placeholder vocabularies and of plain field values),
resolution replaces every occurrence of a known token with that key's value
and leaves the literal text of every unknown token byte-for-byte unchanged,
never raising — i.e. it equals the simultaneous segment-wise resolution. -/
theorem replace_placeholders_resolves_known_preserves_unknown
    (table : List (Str × Str)) (segs : List Seg)
    (htab : ∀ kv ∈ table, braceFree kv.1 = true ∧ braceFree kv.2 = true)
    (hwf : ∀ s ∈ segs, segWF s = true) :
    replace_placeholders (flattenSegs segs) table
      = flattenSegs (segs.map (resolveTok table)) := by
  rw [replace_placeholders_flatten table segs htab hwf,
    applyTable_eq_map_resolveTok]

theorem replace_placeholders_resolves_known_preserves_unknown_witness :
    replace_placeholders
        (flattenSegs [Seg.tok "ItemName".toList, Seg.lit " / ".toList,
          Seg.tok "Unknown".toList])
        [("ItemName".toList, "Resistor 10k".toList), ("SKU".toList, "R10".toList)]
      = flattenSegs ([Seg.tok "ItemName".toList, Seg.lit " / ".toList,
          Seg.tok "Unknown".toList].map
          (resolveTok [("ItemName".toList, "Resistor 10k".toList),
            ("SKU".toList, "R10".toList)])) ∧
    replace_placeholders "{ItemName} / {Unknown}".toList
        [("ItemName".toList, "Resistor 10k".toList), ("SKU".toList, "R10".toList)]
      = "Resistor 10k / {Unknown}".toList :=
  ⟨replace_placeholders_resolves_known_preserves_unknown
      [("ItemName".toList, "Resistor 10k".toList), ("SKU".toList, "R10".toList)]
      [Seg.tok "ItemName".toList, Seg.lit " / ".toList, Seg.tok "Unknown".toList]
      (by decide) (by decide),
    by decide⟩

end EM
